import Mathlib

/-!
# Verification of the transactions-analytics insight pipeline

Shallow embedding of `insight_chain.py` (functions `plan_tasks` (parsing part),
`execute_tasks`, `run_insight_pipeline`) from the repository
`Transactions_Analytics-Demo`, together with proofs of the spec claims.

The external collaborators (DuckDB engine, pandas dataframes, the two LLM
calls, the dataset loader) are modelled as explicit parameters:
* the engine is a function `ResultFrame → String → Except String ResultFrame`
  (the registered `transactions` table, then the SQL text; an `Except.error`
  models a raised engine exception caught by the `except` block);
* the task generator, narrator and dataset loader are `Except`-valued
  parameters of the orchestrator (an `Except.error` models a raised
  exception, which in Python propagates out of `run_insight_pipeline`).

Python `str` operations used by the code (`lower`, `lstrip`, `strip`,
`startswith`) are embedded over the character list of a Lean `String`.
-/

namespace TxAnalytics

/-! ## Python string primitives -/

/-- Python `s.lower()` (restricted to ASCII case mapping, which is what the
guard's keyword comparison exercises). -/
def pyLower (s : String) : String := ⟨s.data.map Char.toLower⟩

/-- Python `s.lstrip()`: drop leading whitespace. -/
def pyLstrip (s : String) : String := ⟨s.data.dropWhile Char.isWhitespace⟩

/-- Python `s.strip()`: drop leading and trailing whitespace. -/
def pyStrip (s : String) : String :=
  ⟨((s.data.dropWhile Char.isWhitespace).reverse.dropWhile Char.isWhitespace).reverse⟩

/-- Python `s.startswith(pre)`. -/
def pyStartswith (pre s : String) : Bool := pre.data.isPrefixOf s.data

/-! ## Data model

`DateTime` models a pandas `datetime64[ns]` scalar (a `pd.Timestamp`); its
representable years all lie in 1677..2262, recorded in `validDT` below.
Engine result sets are modelled as dtype-annotated frames (`ResultFrame`):
a pandas DataFrame carries one dtype per column, and `execute_tasks` lines
168-173 select the columns to convert by dtype. -/

structure DateTime where
  year : Nat
  month : Nat
  day : Nat
  hour : Nat
  minute : Nat
  second : Nat
deriving DecidableEq

/-- Column dtypes of an engine result frame. `datetimeCol` stands for
`datetime64[ns]` / `datetime64[ns, tz]`; `objCol` for pandas `object`
columns (whose values are *not* datetime-converted by lines 168-173). -/
inductive DType where
  | intCol
  | strCol
  | boolCol
  | datetimeCol
  | objCol
deriving DecidableEq

/-- A scalar cell of an engine result frame. -/
inductive Cell where
  | intC (n : Int)
  | strC (s : String)
  | boolC (b : Bool)
  | dtC (d : DateTime)
  | nullC
deriving DecidableEq

/-- An engine result set: named, dtype-annotated columns and a list of rows. -/
structure ResultFrame where
  cols : List (String × DType)
  rows : List (List Cell)

/-- A Python value as it appears in the unified JSON-serializable envelope.
`vdatetime` is a raw `pd.Timestamp` object that escaped conversion: it is
*not* a JSON primitive. -/
inductive PyVal where
  | vstr (s : String)
  | vint (n : Int)
  | vbool (b : Bool)
  | vnull
  | vdatetime (d : DateTime)
  | varr (xs : List PyVal)
  | vobj (kvs : List (String × PyVal))

/-- Is this value a JSON-primitive scalar (string, number, boolean, null)? -/
def isJsonPrimitive : PyVal → Bool
  | .vstr _ => true
  | .vint _ => true
  | .vbool _ => true
  | .vnull => true
  | .vdatetime _ => false
  | .varr _ => false
  | .vobj _ => false

/-- Key lookup in an embedded Python dict (first match wins, as in the
association lists we build; the dicts built by the code have distinct keys). -/
def lookupKey : List (String × PyVal) → String → Option PyVal
  | [], _ => none
  | (k, v) :: rest, key => if k = key then some v else lookupKey rest key

/-- One planned analysis task (`TaskPlanItem` dataclass, lines 22-26). -/
structure TaskPlanItem where
  task_name : String
  task_description : String
  sql_query : String
deriving DecidableEq

/-! ## plan_tasks parsing (lines 118-127)

The LLM invocation itself is external; what the code owns is the loop that
turns each raw task dict into a `TaskPlanItem`, substituting a default when
a key is missing (`t.get(key, default)`). The raw dicts are modelled as
string-valued association lists, per the JSON schema the generator is
required to produce. -/

/-- The constructor call `TaskPlanItem(t.get("task_name", "Unnamed Task"), t.get("task_description", ""),
t.get("sql_query", ""))` for one raw task dict `t` (lines 120-126). -/
def planItemOfRaw (t : List (String × String)) : TaskPlanItem :=
  { task_name := (t.lookup "task_name").getD "Unnamed Task"
    task_description := (t.lookup "task_description").getD ""
    sql_query := (t.lookup "sql_query").getD "" }

/-- The whole parsing loop of `plan_tasks` over `raw.get("tasks", [])`. -/
def planItemsOfRaw (raw_tasks : List (List (String × String))) : List TaskPlanItem :=
  raw_tasks.map planItemOfRaw

/-! ## Query Guard (line 156) -/

/-- The guard condition `sql.lower().lstrip().startswith("select")` of
line 156, applied to the already-stripped `sql`. -/
def guardPermits (sql : String) : Bool :=
  pyStartswith "select" (pyLstrip (pyLower sql))

/-! ## Query Executor serialization (lines 164-175)

`result_df.select_dtypes(include=["datetime64[ns]", "datetime64[ns, tz]"])`
picks the datetime-dtyped columns; each is passed through
`.dt.strftime("%Y-%m-%d %H:%M:%S")`; then `to_dict(orient="records")`
materializes the rows. -/

/-- Two-digit zero-padded decimal, as `strftime` prints `%m %d %H %M %S`
(exact for values below 100, which covers every pandas timestamp field). -/
def pad2chars (n : Nat) : List Char :=
  [Nat.digitChar (n / 10 % 10), Nat.digitChar (n % 10)]

/-- Four-digit zero-padded decimal, as `strftime` prints `%Y` (exact for
years below 10000; pandas `datetime64[ns]` years lie in 1677..2262). -/
def pad4chars (n : Nat) : List Char :=
  [Nat.digitChar (n / 1000 % 10), Nat.digitChar (n / 100 % 10),
   Nat.digitChar (n / 10 % 10), Nat.digitChar (n % 10)]

/-- The conversion `ts.strftime("%Y-%m-%d %H:%M:%S")`. -/
def formatTimestamp (d : DateTime) : String :=
  ⟨pad4chars d.year ++ '-' :: pad2chars d.month ++ '-' :: pad2chars d.day ++
   ' ' :: pad2chars d.hour ++ ':' :: pad2chars d.minute ++ ':' :: pad2chars d.second⟩

/-- How one cell of a column with the given dtype appears after the
conversion step and `to_dict`: datetime-dtyped cells become formatted
strings; anything else passes through with its native type (in particular a
`pd.Timestamp` sitting in an `object` column would escape unconverted). -/
def serializeCell : DType → Cell → PyVal
  | .datetimeCol, .dtC d => .vstr (formatTimestamp d)
  | _, .intC n => .vint n
  | _, .strC s => .vstr s
  | _, .boolC b => .vbool b
  | _, .nullC => .vnull
  | _, .dtC d => .vdatetime d

/-- One record of `result_df.to_dict(orient="records")` after conversion. -/
def serializeRow (cols : List (String × DType)) (cells : List Cell) :
    List (String × PyVal) :=
  (cols.zip cells).map (fun p => (p.1.1, serializeCell p.1.2 p.2))

/-- The materialization `rows = result_df.to_dict(orient="records")` of line 175
(after the conversion of lines 168-173). -/
def serializeFrame (f : ResultFrame) : List (List (String × PyVal)) :=
  f.rows.map (serializeRow f.cols)

/-- Does this pandas timestamp lie in a range on which `formatTimestamp`
agrees exactly with `strftime` (true of every `datetime64[ns]` value)? -/
def validDT (d : DateTime) : Bool :=
  1000 ≤ d.year && d.year ≤ 9999 && 1 ≤ d.month && d.month ≤ 12 &&
  1 ≤ d.day && d.day ≤ 31 && d.hour ≤ 23 && d.minute ≤ 59 && d.second ≤ 59

/-- Does a cell have the storage type its column's dtype dictates (as pandas
guarantees for a materialized DataFrame)? `object` columns are untyped. -/
def cellMatches : DType → Cell → Bool
  | .datetimeCol, .dtC d => validDT d
  | .datetimeCol, _ => false
  | .intCol, .intC _ => true
  | .intCol, .nullC => true
  | .intCol, _ => false
  | .strCol, .strC _ => true
  | .strCol, .nullC => true
  | .strCol, _ => false
  | .boolCol, .boolC _ => true
  | .boolCol, .nullC => true
  | .boolCol, _ => false
  | .objCol, .dtC _ => false
  | .objCol, _ => true

/-- Well-formedness of an engine result frame: every row has one cell per
column and each cell matches its column's dtype. A DataFrame materialized
by `con.execute(sql).df()` satisfies this; `objCol` columns are additionally
assumed not to smuggle raw timestamps (DuckDB types timestamp results as
`datetime64`, which is the premise of the conversion step). -/
def frameWF (f : ResultFrame) : Bool :=
  f.rows.all (fun cells =>
    cells.length == f.cols.length &&
    (f.cols.zip cells).all (fun p => cellMatches p.1.2 p.2))

/-! ## Task Runner (`execute_tasks`, lines 130-193) -/

/-- The engine: the registered `transactions` dataframe and a SQL text in,
a result frame or a raised error out (`con.execute(sql).df()`). -/
def Engine : Type := ResultFrame → String → Except String ResultFrame

/-- The single synthetic row for a guard-rejected query (lines 157-162). -/
def guardErrorRows (sql : String) : List (List (String × PyVal)) :=
  [[("error", .vstr "Only SELECT queries are allowed."),
    ("sql_received", .vstr sql)]]

/-- The single synthetic row for an engine-level failure (lines 177-182):
`{"error": f"Query execution failed: {e}", "sql_received": sql}`. -/
def execErrorRows (e sql : String) : List (List (String × PyVal)) :=
  [[("error", .vstr ("Query execution failed: " ++ e)),
    ("sql_received", .vstr sql)]]

/-- The `rows` computed for one task by the loop body (lines 153-182):
strip the query, guard it, then either run it through the engine (errors
caught and turned into the synthetic row) or reject it without ever
consulting the engine. -/
def taskRows (engine : Engine) (df : ResultFrame) (t : TaskPlanItem) :
    List (List (String × PyVal)) :=
  let sql := pyStrip t.sql_query
  if !guardPermits sql then
    guardErrorRows sql
  else
    match engine df sql with
    | .ok result_df => serializeFrame result_df
    | .error e => execErrorRows e sql

/-- The dict appended to `unified["tasks"]` for one task (lines 184-191). -/
def taskDict (engine : Engine) (df : ResultFrame) (t : TaskPlanItem) :
    List (String × PyVal) :=
  [("task_name", .vstr t.task_name),
   ("task_description", .vstr t.task_description),
   ("sql_query", .vstr t.sql_query),
   ("rows", .varr ((taskRows engine df t).map .vobj))]

/-- The `unified["tasks"]` list built by the loop over `tasks` (line 152). -/
def tasksArray (engine : Engine) (df : ResultFrame) (tasks : List TaskPlanItem) :
    List PyVal :=
  tasks.map (fun t => .vobj (taskDict engine df t))

/-- The function `execute_tasks(tasks, df)`: the unified envelope
`{"tasks": [...]}` (lines 130-193). -/
def execute_tasks (engine : Engine) (tasks : List TaskPlanItem)
    (df : ResultFrame) : List (String × PyVal) :=
  [("tasks", .varr (tasksArray engine df tasks))]

/-! ## Pipeline Orchestrator (`run_insight_pipeline`, lines 236-257) -/

/-- The function `run_insight_pipeline(user_question)`. The dataset loader, the task
generator (`plan_tasks`, whose LLM call may raise) and the narrator
(`generate_answer`) are passed in as `Except`-valued collaborators; a raised
Python exception is an `Except.error`, which the `do`-block propagates
exactly as the Python code (which has no try/except here) re-raises it. -/
def run_insight_pipeline (loader : Except String ResultFrame)
    (planner : String → Except String (List TaskPlanItem))
    (narrator : String → List (String × PyVal) → Except String String)
    (engine : Engine) (user_question : String) :
    Except String (List (String × PyVal)) := do
  let df ← loader
  let tasks ← planner user_question
  let unified_json := execute_tasks engine tasks df
  let answer ← narrator user_question unified_json
  pure [("answer", .vstr answer), ("response_json", .vobj unified_json)]

/-! ## Spec-side definitions (for refinement claims) -/

/-- Modelled from the spec's words (§4.1): the query is permitted only if,
after trimming leading whitespace, it begins case-insensitively with the
keyword `SELECT`. Case-insensitive begins-with is lower-both-and-compare. -/
def specSelectPermits (q : String) : Bool :=
  pyStartswith (pyLower "SELECT") (pyLower (pyLstrip q))

/-- Does a character list spell a `YYYY-MM-DD HH:MM:SS` timestamp? -/
def isTimestampChars : List Char → Bool
  | [y1, y2, y3, y4, c1, m1, m2, c2, d1, d2, c3, h1, h2, c4, n1, n2, c5, s1, s2] =>
    y1.isDigit && y2.isDigit && y3.isDigit && y4.isDigit &&
    c1 == '-' && m1.isDigit && m2.isDigit && c2 == '-' &&
    d1.isDigit && d2.isDigit && c3 == ' ' &&
    h1.isDigit && h2.isDigit && c4 == ':' &&
    n1.isDigit && n2.isDigit && c5 == ':' &&
    s1.isDigit && s2.isDigit
  | _ => false

/-- Does a string match the fixed `YYYY-MM-DD HH:MM:SS` format of the spec? -/
def isTimestampStr (s : String) : Bool := isTimestampChars s.data

/-! ## Helper lemmas -/

/-- ASCII lowercasing does not create or destroy whitespace. -/
theorem isWhitespace_toLower (c : Char) :
    (Char.toLower c).isWhitespace = c.isWhitespace := by
  show (if c.toNat ≥ 65 ∧ c.toNat ≤ 90 then Char.ofNat (c.toNat + 32) else c).isWhitespace
    = c.isWhitespace
  by_cases h : c.toNat ≥ 65 ∧ c.toNat ≤ 90
  · rw [if_pos h]
    obtain ⟨h1, h2⟩ := h
    have hws : c.isWhitespace = false := by
      simp only [Char.isWhitespace, Bool.or_eq_false_iff, decide_eq_false_iff_not]
      refine ⟨⟨⟨?_, ?_⟩, ?_⟩, ?_⟩ <;> rintro rfl <;> revert h1 <;> decide
    rw [hws]
    generalize hn : c.toNat = n at h1 h2 ⊢
    interval_cases n <;> decide
  · rw [if_neg h]

/-- Applying `lower` then `lstrip` equals applying `lstrip` then `lower`. -/
theorem lstrip_lower_comm (q : String) : pyLstrip (pyLower q) = pyLower (pyLstrip q) := by
  simp only [pyLstrip, pyLower]
  congr 1
  rw [List.dropWhile_map]
  have hp : (Char.isWhitespace ∘ Char.toLower) = Char.isWhitespace :=
    funext fun c => isWhitespace_toLower c
  rw [hp]

/-- The last decimal digit always prints as a digit character. -/
theorem digitChar_mod_isDigit (n : Nat) : (Nat.digitChar (n % 10)).isDigit = true := by
  have h : n % 10 < 10 := Nat.mod_lt _ (by decide)
  generalize hm : n % 10 = m at h
  interval_cases m <;> decide

/-- The function `formatTimestamp` always produces a `YYYY-MM-DD HH:MM:SS`-shaped
string. -/
theorem formatTimestamp_isTimestamp (d : DateTime) :
    isTimestampStr (formatTimestamp d) = true := by
  simp [isTimestampStr, formatTimestamp, pad4chars, pad2chars, isTimestampChars,
    digitChar_mod_isDigit]

/-! ## Claims -/

/-- C2: the Query Guard permits a query text iff, after trimming leading
whitespace, it begins case-insensitively with the keyword SELECT (so
multi-statement, comments-only and empty text are all rejected); a rejected
query yields the single synthetic error row with the fixed rejection
message and never reaches the engine (the result is the same for every
engine and table). -/
theorem C2_guard_select_only :
    (∀ q : String, guardPermits q = specSelectPermits q) ∧
    (∀ (e₁ e₂ : Engine) (df₁ df₂ : ResultFrame) (t : TaskPlanItem),
      guardPermits (pyStrip t.sql_query) = false →
      taskRows e₁ df₁ t = guardErrorRows (pyStrip t.sql_query) ∧
      taskRows e₁ df₁ t = taskRows e₂ df₂ t) := by
  constructor
  · intro q
    have hsel : pyLower "SELECT" = "select" := by decide
    rw [specSelectPermits, hsel, guardPermits, lstrip_lower_comm]
  · intro e₁ e₂ df₁ df₂ t h
    constructor <;> simp [taskRows, h]

/-- Witness for C2: the guard rejects `DROP TABLE transactions` and the
task's rows are the fixed synthetic rejection row, for a concrete engine
that would error if it were ever consulted. -/
theorem C2_guard_select_only_witness :
    taskRows (fun _ _ => .error "boom") ⟨[], []⟩ ⟨"T1", "", "DROP TABLE transactions"⟩ =
      guardErrorRows (pyStrip "DROP TABLE transactions") :=
  (C2_guard_select_only.2 (fun _ _ => .error "boom") (fun _ _ => .ok ⟨[], []⟩)
    ⟨[], []⟩ ⟨[], []⟩ ⟨"T1", "", "DROP TABLE transactions"⟩ (by decide)).1

/-- C1 counterexample: when a permitted query fails at the engine, the
synthetic row's second key is `sql_received`, not `query_received` as the
claim states — looking up `query_received` in the produced row finds
nothing. -/
theorem C1_counterexample :
    taskRows (fun _ _ => .error "Binder Error: column nope not found") ⟨[], []⟩
        ⟨"T1", "", "SELECT nope FROM transactions"⟩ =
      [[("error", .vstr "Query execution failed: Binder Error: column nope not found"),
        ("sql_received", .vstr "SELECT nope FROM transactions")]] ∧
    lookupKey
        [("error", .vstr "Query execution failed: Binder Error: column nope not found"),
         ("sql_received", .vstr "SELECT nope FROM transactions")] "query_received" = none :=
  ⟨rfl, rfl⟩

/-- C1 (amended): for every task whose permitted query fails at the engine,
the executor catches the error and the task's rows become the single
synthetic row `{error: "Query execution failed: " ++ message,
sql_received: <stripped query text>}` — the key is `sql_received` (not
`query_received`) and it holds the whitespace-stripped query text; no
exception propagates (taskRows is a total function). -/
theorem C1_engine_failure_row (engine : Engine) (df : ResultFrame)
    (t : TaskPlanItem) (e : String)
    (hg : guardPermits (pyStrip t.sql_query) = true)
    (he : engine df (pyStrip t.sql_query) = .error e) :
    taskRows engine df t =
      [[("error", .vstr ("Query execution failed: " ++ e)),
        ("sql_received", .vstr (pyStrip t.sql_query))]] := by
  simp [taskRows, hg, he, execErrorRows]

/-- Witness for C1 (amended) at a concrete always-failing engine. -/
theorem C1_engine_failure_row_witness :
    taskRows (fun _ _ => .error "Conversion Error: type mismatch") ⟨[], []⟩
        ⟨"T1", "", "SELECT amount_inr FROM transactions"⟩ =
      [[("error", .vstr ("Query execution failed: " ++ "Conversion Error: type mismatch")),
        ("sql_received", .vstr (pyStrip "SELECT amount_inr FROM transactions"))]] :=
  C1_engine_failure_row _ _ _ _ (by decide) rfl

/-- C3: for every task-spec list, the envelope contains exactly one Task
Result per task spec, in the same order — position `i` of the `tasks` array
is exactly the dict built from input task `i`, whatever the engine did. -/
theorem C3_length_and_order (engine : Engine) (df : ResultFrame)
    (tasks : List TaskPlanItem) :
    execute_tasks engine tasks df = [("tasks", .varr (tasksArray engine df tasks))] ∧
    (tasksArray engine df tasks).length = tasks.length ∧
    ∀ i : Nat, (tasksArray engine df tasks)[i]? =
      (tasks[i]?).map (fun t => PyVal.vobj (taskDict engine df t)) := by
  refine ⟨rfl, by simp [tasksArray], fun i => ?_⟩
  simp [tasksArray]

/-- C4: the Task Runner is a total function (no per-task exception), every
task spec yields exactly one Task Result, and one task's result depends
only on that task spec (and the read-only engine/table), so another task's
failure cannot affect it. A structurally bad task list is unrepresentable
in the typed embedding (the Python `TypeError` on a non-list is the one
fatal case the claim allows). -/
theorem C4_failure_isolation (engine : Engine) (df : ResultFrame)
    (ts₁ ts₂ : List TaskPlanItem) (i : Nat) (h : ts₁[i]? = ts₂[i]?) :
    (tasksArray engine df ts₁).length = ts₁.length ∧
    (tasksArray engine df ts₁)[i]? = (tasksArray engine df ts₂)[i]? := by
  refine ⟨by simp [tasksArray], ?_⟩
  simp [tasksArray, h]

/-- Witness for C4: a batch whose first task is an invalid `DROP` next to a
valid `SELECT` task; the valid task's result at position 1 is identical to
its result in a batch where the first task is a different, valid one. -/
theorem C4_failure_isolation_witness :
    (tasksArray (fun _ _ => .ok ⟨[], []⟩) ⟨[], []⟩
        [⟨"Bad", "", "DROP TABLE transactions"⟩, ⟨"Good", "", "SELECT 1"⟩]).length = 2 ∧
    (tasksArray (fun _ _ => .ok ⟨[], []⟩) ⟨[], []⟩
        [⟨"Bad", "", "DROP TABLE transactions"⟩, ⟨"Good", "", "SELECT 1"⟩])[1]? =
    (tasksArray (fun _ _ => .ok ⟨[], []⟩) ⟨[], []⟩
        [⟨"Other", "", "SELECT 2"⟩, ⟨"Good", "", "SELECT 1"⟩])[1]? :=
  C4_failure_isolation (fun _ _ => .ok ⟨[], []⟩) ⟨[], []⟩
    [⟨"Bad", "", "DROP TABLE transactions"⟩, ⟨"Good", "", "SELECT 1"⟩]
    [⟨"Other", "", "SELECT 2"⟩, ⟨"Good", "", "SELECT 1"⟩] 1 (by decide)

/-- C5: every Task Result dict in the envelope carries exactly the four
fields `task_name`, `task_description`, `sql_query`, `rows` in that order,
each bound to a non-null value (strings for the first three, an array for
`rows`). -/
theorem C5_stable_fields (engine : Engine) (df : ResultFrame)
    (tasks : List TaskPlanItem) :
    tasksArray engine df tasks = tasks.map (fun t => .vobj (taskDict engine df t)) ∧
    ∀ t : TaskPlanItem,
      (taskDict engine df t).map Prod.fst =
        ["task_name", "task_description", "sql_query", "rows"] ∧
      lookupKey (taskDict engine df t) "task_name" = some (.vstr t.task_name) ∧
      lookupKey (taskDict engine df t) "task_description" = some (.vstr t.task_description) ∧
      lookupKey (taskDict engine df t) "sql_query" = some (.vstr t.sql_query) ∧
      lookupKey (taskDict engine df t) "rows" =
        some (.varr ((taskRows engine df t).map .vobj)) ∧
      ∀ k v, lookupKey (taskDict engine df t) k = some v → v ≠ .vnull := by
  refine ⟨rfl, fun t => ⟨rfl, rfl, rfl, rfl, rfl, fun k v hv => ?_⟩⟩
  simp only [taskDict, lookupKey] at hv
  split at hv
  · cases hv; simp
  · split at hv
    · cases hv; simp
    · split at hv
      · cases hv; simp
      · split at hv
        · cases hv; simp
        · cases hv

/-- Witness for C5 at a concrete task. -/
theorem C5_stable_fields_witness :
    lookupKey (taskDict (fun _ _ => .ok ⟨[], []⟩) ⟨[], []⟩ ⟨"T1", "D1", "SELECT 1"⟩)
        "task_name" = some (.vstr "T1") ∧
    ∀ k v, lookupKey (taskDict (fun _ _ => .ok ⟨[], []⟩) ⟨[], []⟩ ⟨"T1", "D1", "SELECT 1"⟩)
        k = some v → v ≠ .vnull :=
  ⟨((C5_stable_fields (fun _ _ => .ok ⟨[], []⟩) ⟨[], []⟩
      [⟨"T1", "D1", "SELECT 1"⟩]).2 ⟨"T1", "D1", "SELECT 1"⟩).2.1,
   ((C5_stable_fields (fun _ _ => .ok ⟨[], []⟩) ⟨[], []⟩
      [⟨"T1", "D1", "SELECT 1"⟩]).2 ⟨"T1", "D1", "SELECT 1"⟩).2.2.2.2.2⟩

/-- C9: the executor is deterministic in the query text and table — two
task specs with the same query text get identical row sequences from the
same engine over the same unmodified table, and in particular running the
same task twice in one batch yields two identical results. -/
theorem C9_deterministic (engine : Engine) (df : ResultFrame)
    (t₁ t₂ : TaskPlanItem) (h : t₁.sql_query = t₂.sql_query) :
    taskRows engine df t₁ = taskRows engine df t₂ ∧
    tasksArray engine df [t₁, t₁] =
      [.vobj (taskDict engine df t₁), .vobj (taskDict engine df t₁)] := by
  refine ⟨by simp [taskRows, h], rfl⟩

/-- Witness for C9: two distinctly named tasks with the same query text. -/
theorem C9_deterministic_witness :
    taskRows (fun _ _ => .ok ⟨[("n", .intCol)], [[.intC 3]]⟩) ⟨[], []⟩
        ⟨"First", "a", "SELECT COUNT(*) AS n FROM transactions"⟩ =
      taskRows (fun _ _ => .ok ⟨[("n", .intCol)], [[.intC 3]]⟩) ⟨[], []⟩
        ⟨"Second", "b", "SELECT COUNT(*) AS n FROM transactions"⟩ :=
  (C9_deterministic (fun _ _ => .ok ⟨[("n", .intCol)], [[.intC 3]]⟩) ⟨[], []⟩
    ⟨"First", "a", "SELECT COUNT(*) AS n FROM transactions"⟩
    ⟨"Second", "b", "SELECT COUNT(*) AS n FROM transactions"⟩ rfl).1

/-- C10: `plan_tasks` substitutes defaults for missing fields of a raw task
dict — `task_name` becomes "Unnamed Task", `task_description` and
`sql_query` become the empty string — and a spec whose query defaulted to
the empty string flows through the runner and yields the synthetic
guard-rejection row (the empty string fails the Guard) instead of a crash. -/
theorem C10_defaults (d : List (String × String)) (engine : Engine) (df : ResultFrame) :
    (d.lookup "task_name" = none → (planItemOfRaw d).task_name = "Unnamed Task") ∧
    (d.lookup "task_description" = none → (planItemOfRaw d).task_description = "") ∧
    (d.lookup "sql_query" = none → (planItemOfRaw d).sql_query = "") ∧
    ((planItemOfRaw d).sql_query = "" →
      taskRows engine df (planItemOfRaw d) = guardErrorRows "") := by
  refine ⟨fun h => ?_, fun h => ?_, fun h => ?_, fun h => ?_⟩
  · simp [planItemOfRaw, h]
  · simp [planItemOfRaw, h]
  · simp [planItemOfRaw, h]
  · have h1 : pyStrip "" = "" := rfl
    have h2 : guardPermits "" = false := rfl
    simp [taskRows, h, h1, h2]

/-- Witness for C10: the empty raw dict gets all three defaults and its
empty query produces the rejection row. -/
theorem C10_defaults_witness :
    (planItemOfRaw []).task_name = "Unnamed Task" ∧
    (planItemOfRaw []).task_description = "" ∧
    (planItemOfRaw []).sql_query = "" ∧
    taskRows (fun _ _ => .error "boom") ⟨[], []⟩ (planItemOfRaw []) = guardErrorRows "" :=
  ⟨(C10_defaults [] (fun _ _ => .error "boom") ⟨[], []⟩).1 rfl,
   (C10_defaults [] (fun _ _ => .error "boom") ⟨[], []⟩).2.1 rfl,
   (C10_defaults [] (fun _ _ => .error "boom") ⟨[], []⟩).2.2.1 rfl,
   (C10_defaults [] (fun _ _ => .error "boom") ⟨[], []⟩).2.2.2 rfl⟩

/-- C6: for every well-formed engine result frame (one cell per column,
cells matching their column's dtype, as pandas materializes for a valid
SELECT), the serialized rows contain only JSON-primitive values, and every
cell of a datetime-dtyped column appears in its serialized row as a string
matching `YYYY-MM-DD HH:MM:SS`. -/
theorem C6_json_safe_rows (f : ResultFrame) (hw : frameWF f = true) :
    (∀ row ∈ serializeFrame f, ∀ p ∈ row, isJsonPrimitive p.2 = true) ∧
    (∀ cells ∈ f.rows, ∀ p ∈ f.cols.zip cells, p.1.2 = DType.datetimeCol →
      ∃ s, (p.1.1, PyVal.vstr s) ∈ serializeRow f.cols cells ∧
        isTimestampStr s = true) := by
  simp only [frameWF, List.all_eq_true, Bool.and_eq_true, beq_iff_eq] at hw
  constructor
  · intro row hrow p hp
    obtain ⟨cells, hc, rfl⟩ := List.mem_map.mp hrow
    obtain ⟨q, hq, rfl⟩ := List.mem_map.mp hp
    have hm : cellMatches q.1.2 q.2 = true := (hw cells hc).2 q hq
    obtain ⟨⟨name, dty⟩, c⟩ := q
    cases dty <;> cases c <;> simp_all [cellMatches, serializeCell, isJsonPrimitive]
  · intro cells hc p hp hdt
    have hm : cellMatches p.1.2 p.2 = true := (hw cells hc).2 p hp
    obtain ⟨⟨name, dty⟩, c⟩ := p
    simp only at hdt
    subst hdt
    cases c with
    | intC n => simp [cellMatches] at hm
    | strC s => simp [cellMatches] at hm
    | boolC b => simp [cellMatches] at hm
    | nullC => simp [cellMatches] at hm
    | dtC d =>
      exact ⟨formatTimestamp d,
        List.mem_map_of_mem
          (fun p : (String × DType) × Cell => (p.1.1, serializeCell p.1.2 p.2)) hp,
        formatTimestamp_isTimestamp d⟩

/-- Witness for C6 at a concrete two-column frame with a timestamp column. -/
theorem C6_json_safe_rows_witness :
    (∀ p ∈ serializeRow [("transaction_id", DType.intCol), ("timestamp", DType.datetimeCol)]
        [Cell.intC 1, Cell.dtC ⟨2024, 3, 7, 14, 5, 9⟩], isJsonPrimitive p.2 = true) ∧
    ∃ s, ("timestamp", PyVal.vstr s) ∈
        serializeRow [("transaction_id", DType.intCol), ("timestamp", DType.datetimeCol)]
          [Cell.intC 1, Cell.dtC ⟨2024, 3, 7, 14, 5, 9⟩] ∧
      isTimestampStr s = true := by
  have h := C6_json_safe_rows
    ⟨[("transaction_id", DType.intCol), ("timestamp", DType.datetimeCol)],
     [[Cell.intC 1, Cell.dtC ⟨2024, 3, 7, 14, 5, 9⟩]]⟩ (by decide)
  exact ⟨fun p hp => h.1 _ (List.mem_singleton.mpr rfl) p hp,
    h.2 [Cell.intC 1, Cell.dtC ⟨2024, 3, 7, 14, 5, 9⟩] (List.mem_singleton.mpr rfl)
      ((("timestamp", DType.datetimeCol)), Cell.dtC ⟨2024, 3, 7, 14, 5, 9⟩)
      (List.Mem.tail _ (List.Mem.head _)) rfl⟩

/-- C7: the orchestrator propagates a loader, generator or narrator failure
unchanged (it raises exactly when one of them fails and never synthesizes a
partial answer), and every successful return carries the answer string and
the `response_json` envelope together. -/
theorem C7_orchestrator_pairing (loader : Except String ResultFrame)
    (planner : String → Except String (List TaskPlanItem))
    (narrator : String → List (String × PyVal) → Except String String)
    (engine : Engine) (q : String) :
    (∀ e, loader = .error e →
      run_insight_pipeline loader planner narrator engine q = .error e) ∧
    (∀ df e, loader = .ok df → planner q = .error e →
      run_insight_pipeline loader planner narrator engine q = .error e) ∧
    (∀ df tasks e, loader = .ok df → planner q = .ok tasks →
      narrator q (execute_tasks engine tasks df) = .error e →
      run_insight_pipeline loader planner narrator engine q = .error e) ∧
    (∀ df tasks ans, loader = .ok df → planner q = .ok tasks →
      narrator q (execute_tasks engine tasks df) = .ok ans →
      run_insight_pipeline loader planner narrator engine q =
        .ok [("answer", .vstr ans),
             ("response_json", .vobj (execute_tasks engine tasks df))]) ∧
    (∀ v, run_insight_pipeline loader planner narrator engine q = .ok v →
      ∃ ans env, v = [("answer", .vstr ans), ("response_json", .vobj env)] ∧
        lookupKey v "answer" = some (.vstr ans) ∧
        lookupKey v "response_json" = some (.vobj env)) := by
  refine ⟨fun e he => ?_, fun df e hl hp => ?_, fun df tasks e hl hp hn => ?_,
    fun df tasks ans hl hp hn => ?_, fun v hv => ?_⟩
  · simp [run_insight_pipeline, he, bind, Except.bind]
  · simp [run_insight_pipeline, hl, hp, bind, Except.bind]
  · simp [run_insight_pipeline, hl, hp, hn, bind, Except.bind]
  · simp [run_insight_pipeline, hl, hp, hn, bind, Except.bind, pure, Except.pure]
  · cases hl : loader with
    | error e => simp [run_insight_pipeline, hl, bind, Except.bind] at hv
    | ok df =>
      cases hp : planner q with
      | error e => simp [run_insight_pipeline, hl, hp, bind, Except.bind] at hv
      | ok tasks =>
        cases hn : narrator q (execute_tasks engine tasks df) with
        | error e => simp [run_insight_pipeline, hl, hp, hn, bind, Except.bind] at hv
        | ok ans =>
          simp only [run_insight_pipeline, hl, hp, hn, bind, Except.bind,
            pure, Except.pure, Except.ok.injEq] at hv
          exact ⟨ans, execute_tasks engine tasks df, hv.symm, by subst hv; rfl,
            by subst hv; rfl⟩

/-- Witness for C7: a fully successful run returns the paired
answer/envelope object. -/
theorem C7_orchestrator_pairing_witness :
    run_insight_pipeline (.ok ⟨[], []⟩) (fun _ => .ok []) (fun _ _ => .ok "All good.")
        (fun _ _ => .ok ⟨[], []⟩) "How are sales?" =
      .ok [("answer", .vstr "All good."),
           ("response_json", .vobj (execute_tasks (fun _ _ => .ok ⟨[], []⟩) [] ⟨[], []⟩))] :=
  (C7_orchestrator_pairing (.ok ⟨[], []⟩) (fun _ => .ok []) (fun _ _ => .ok "All good.")
    (fun _ _ => .ok ⟨[], []⟩) "How are sales?").2.2.2.1 ⟨[], []⟩ [] "All good." rfl rfl rfl

/-- C8: an empty task list yields the envelope `{"tasks": []}`, and the
orchestrator still invokes the narrator on exactly that empty envelope (the
run's outcome is the narrator's outcome on it, wrapped in the answer/
envelope pair); the empty case raises nothing by itself. -/
theorem C8_empty_task_list (loader : Except String ResultFrame) (df : ResultFrame)
    (narrator : String → List (String × PyVal) → Except String String)
    (engine : Engine) (q : String) (h : loader = .ok df) :
    execute_tasks engine [] df = [("tasks", .varr [])] ∧
    run_insight_pipeline loader (fun _ => .ok []) narrator engine q =
      (narrator q [("tasks", .varr [])]).map
        (fun ans => [("answer", .vstr ans),
                     ("response_json", .vobj [("tasks", .varr [])])]) := by
  subst h
  refine ⟨rfl, ?_⟩
  cases hn : narrator q [("tasks", .varr [])] <;>
    simp [run_insight_pipeline, execute_tasks, tasksArray, bind, Except.bind,
      Except.map, pure, Except.pure, hn]

/-- Witness for C8 with a concrete narrator that tolerates the empty
envelope. -/
theorem C8_empty_task_list_witness :
    execute_tasks (fun _ _ => .error "never") [] ⟨[], []⟩ = [("tasks", .varr [])] ∧
    run_insight_pipeline (.ok ⟨[], []⟩) (fun _ => .ok [])
        (fun _ _ => .ok "No computed data.") (fun _ _ => .error "never") "Anything?" =
      ((fun (_ : String) (_ : List (String × PyVal)) =>
          (.ok "No computed data." : Except String String)) "Anything?"
        [("tasks", .varr [])]).map
        (fun ans => [("answer", .vstr ans),
                     ("response_json", .vobj [("tasks", .varr [])])]) :=
  C8_empty_task_list (.ok ⟨[], []⟩) ⟨[], []⟩ (fun _ _ => .ok "No computed data.")
    (fun _ _ => .error "never") "Anything?" rfl

end TxAnalytics
